import Mathlib

/-!
Shallow embedding of the cdpflare SQL boundary layer: the sql-guard statement
validator and identifier validator, and the duckdb-http-adapter parameter
substitution, result translation, and prepared-statement lifecycle.
Strings are modelled as Lean `String`; helper functions operate on the
underlying `List Char`.
-/

/-- Single-quote character, built from its code point. -/
def quoteChar : Char := Char.ofNat 39

/-- Single-quote as a one-character string. -/
def quoteStr : String := String.singleton quoteChar

/-- Whitespace characters recognised by the JavaScript `trim` and regex `\s`
(restricted to the ASCII range, which is all the embedded code paths use). -/
def isJsWs (c : Char) : Bool :=
  c == ' ' || c == '\t' || c == '\n' || c == '\r' || c == Char.ofNat 11 || c == Char.ofNat 12

/-- Word character for the JavaScript regex `\b` boundary: `[A-Za-z0-9_]`. -/
def isWordChar (c : Char) : Bool := c.isAlphanum || c == '_'

/-- String.trim of JavaScript: strip whitespace from both ends. -/
def jsTrimChars (s : List Char) : List Char :=
  ((s.dropWhile isJsWs).reverse.dropWhile isJsWs).reverse

/-- JavaScript `s.trim()`. -/
def jsTrim (s : String) : String := String.mk (jsTrimChars s.data)

/-- JavaScript `s.toLowerCase()` (ASCII range). -/
def toLowerStr (s : String) : String := String.mk (s.data.map Char.toLower)

/-- Does the second list start with the first? -/
def startsWithChars : List Char → List Char → Bool
  | [], _ => true
  | _ :: _, [] => false
  | p :: ps, c :: rest => p == c && startsWithChars ps rest

/-- Replace every non-overlapping occurrence of the non-empty pattern
`p :: ps` in the last argument by `rep`, left to right, without rescanning
the replacement: the semantics of JavaScript `s.split(pat).join(rep)`. The
`fuel` argument only makes the recursion structural; every step consumes at
least one character, so any fuel above the input length never runs out. -/
def replaceAllGo (p : Char) (ps rep : List Char) : Nat → List Char → List Char
  | 0, s => s
  | _ + 1, [] => []
  | fuel + 1, c :: rest =>
    if startsWithChars (p :: ps) (c :: rest) then
      rep ++ replaceAllGo p ps rep fuel ((c :: rest).drop (p :: ps).length)
    else
      c :: replaceAllGo p ps rep fuel rest

/-- JavaScript `s.split(pat).join(rep)` for a non-empty pattern (every
pattern used by the code, `$1`, `$2`, …, is non-empty). -/
def replaceAll (s pat rep : String) : String :=
  match pat.data with
  | [] => s
  | p :: ps => String.mk (replaceAllGo p ps rep.data (s.data.length + 1) s.data)

/-! ## sql-guard: statement validator (validator.ts) -/

/-- Result of the third-party statement-boundary classifier for one
statement: its coarse `type` (SELECT, INSERT, SHOW_TABLES, …) and its
`executionType` (LISTING vs MODIFICATION). -/
structure SqlStatement where
  type : String
  executionType : String
deriving DecidableEq

/-- Configuration options for SQL validation. -/
structure SqlGuardConfig where
  selectOnly : Bool
  maxQueryLength : Nat
  blockDangerousFunctions : Bool
deriving DecidableEq

/-- Default configuration values. -/
def DEFAULT_CONFIG : SqlGuardConfig :=
  { selectOnly := true, maxQueryLength := 10000, blockDangerousFunctions := true }

/-- Result of SQL validation. -/
structure ValidationResult where
  valid : Bool
  errors : List String
  statementType : Option String
deriving DecidableEq

/-- Dangerous DuckDB functions that allow file I O or system access. -/
def DANGEROUS_FUNCTIONS : List String :=
  ["read_csv", "read_csv_auto", "read_json", "read_json_auto", "read_parquet",
   "read_blob", "write_csv", "write_parquet", "write_json",
   "copy", "export_database", "import_database", "load", "install",
   "load_extension", "install_extension"]

/-- After the function name the regex `\s*\(` requires optional whitespace
then an opening parenthesis. -/
def parenAfterWs : List Char → Bool
  | [] => false
  | c :: rest => if isJsWs c then parenAfterWs rest else c == '('

/-- Does `s` begin with the function name followed by `\s*\(`? -/
def startsFuncCall (fn : List Char) (s : List Char) : Bool :=
  startsWithChars fn s && parenAfterWs (s.drop fn.length)

/-- Scan for the regex `\bfn\s*\(`: a match position must not be preceded by
a word character (every deny-list name begins with a word character, so the
`\b` boundary reduces to that). `prevWord` records whether the previous
character was a word character. -/
def scanDangerous (fn : List Char) : Bool → List Char → Bool
  | _, [] => false
  | prevWord, c :: rest =>
    ((!prevWord) && startsFuncCall fn (c :: rest)) || scanDangerous fn (isWordChar c) rest

/-- Test of the pattern `new RegExp('\\b' + func + '\\s*\\(', 'i')` against
the lower-cased SQL text. -/
def hasDangerousCall (sql : String) (fn : String) : Bool :=
  scanDangerous fn.data false (toLowerStr sql).data

/-- Error message appended for a matched dangerous function. -/
def dangerMsg (fn : String) : String :=
  "Function " ++ quoteStr ++ fn ++ quoteStr ++ " is not allowed for security reasons"

/-- Errors contributed by the dangerous-function scan. -/
def dangerousErrors (sql : String) (cfg : SqlGuardConfig) : List String :=
  if cfg.blockDangerousFunctions then
    (DANGEROUS_FUNCTIONS.filter (fun fn => hasDangerousCall sql fn)).map dangerMsg
  else []

/-- Check if a statement type is allowed (read operations only). -/
def isAllowedStatementType (t : String) : Bool :=
  t == "SELECT" || t.startsWith ("SHOW_")

/-- Errors contributed by the statement-type and execution-type checks, in
the order the code pushes them. -/
def typeErrors (stmt : SqlStatement) (cfg : SqlGuardConfig) : List String :=
  (if cfg.selectOnly && !isAllowedStatementType stmt.type then
    [stmt.type ++ " statements are not allowed. Only SELECT and SHOW statements are permitted."]
   else [])
  ++ (if stmt.executionType == "MODIFICATION" then
    ["Write operations (" ++ stmt.type ++ ") are not allowed"]
   else [])

/-- Embedding of `validateSql`, parameterised by the third-party statement
classifier `identify` (a thrown classifier exception is modelled as
`Except.error` carrying the message string). -/
def validateSqlWith (identify : String → Except String (List SqlStatement))
    (sql : String) (cfg : SqlGuardConfig) : ValidationResult :=
  if (jsTrim sql).data.isEmpty then
    { valid := false, errors := ["SQL query is empty"], statementType := none }
  else if sql.length > cfg.maxQueryLength then
    { valid := false,
      errors := ["Query exceeds maximum length of " ++ Nat.repr cfg.maxQueryLength ++ " bytes"],
      statementType := none }
  else
    match identify sql with
    | .error e =>
      { valid := false, errors := ["Failed to parse SQL: " ++ e], statementType := none }
    | .ok statements =>
      if statements.length > 1 then
        { valid := false, errors := ["Multiple statements are not allowed"], statementType := none }
      else
        match statements with
        | [] =>
          { valid := false, errors := ["Unable to identify SQL statement type"], statementType := none }
        | stmt :: _ =>
          let errs := typeErrors stmt cfg ++ dangerousErrors sql cfg
          { valid := errs.isEmpty, errors := errs, statementType := some stmt.type }

/-- Embedding of `isReadOnlyQuery`: `validateSql(sql, {selectOnly: true})`
with the remaining options filled from the defaults. -/
def isReadOnlyQuery (identify : String → Except String (List SqlStatement)) (sql : String) : Bool :=
  (validateSqlWith identify sql
    { selectOnly := true, maxQueryLength := 10000, blockDangerousFunctions := true }).valid

/-! ## sql-guard: identifier validator (identifier.ts) -/

/-- Result of identifier validation. -/
structure IdentifierValidationResult where
  valid : Bool
  error : Option String
  sanitized : Option String
deriving DecidableEq

/-- Configuration for identifier validation. -/
structure IdentifierConfig where
  allowedNamespaces : List String
  maxLength : Nat
deriving DecidableEq

/-- Default configuration values for identifier validation. -/
def DEFAULT_IDENTIFIER_CONFIG : IdentifierConfig :=
  { allowedNamespaces := ["analytics"], maxLength := 63 }

/-- SQL keywords that cannot be used as unquoted identifiers (membership is
the only operation the code performs on the set). -/
def SQL_KEYWORDS : List String :=
  ["select", "from", "where", "and", "or", "not", "in", "is", "null",
   "true", "false", "like", "between", "exists", "case", "when", "then",
   "else", "end", "join", "inner", "outer", "left", "right", "full",
   "cross", "on", "as", "order", "by", "group", "having", "limit",
   "offset", "union", "intersect", "except", "all", "distinct",
   "insert", "into", "values", "update", "set", "delete", "drop",
   "create", "alter", "table", "index", "view", "database", "schema",
   "truncate", "grant", "revoke", "primary", "key", "foreign", "references",
   "constraint", "default", "check", "unique", "cascade", "restrict"]

/-- Test of the pattern `^[a-zA-Z_][a-zA-Z0-9_]*$`. -/
def matchesIdentPattern : List Char → Bool
  | [] => false
  | c :: rest => (c.isAlpha || c == '_') && rest.all (fun d => d.isAlphanum || d == '_')

/-- Body of `validateIdentifier` after the `const trimmed` binding. -/
def validateIdentifierTrimmed (trimmed : String) (cfg : IdentifierConfig) : IdentifierValidationResult :=
  if trimmed.data.isEmpty then
    { valid := false, error := some ("Identifier is empty"), sanitized := none }
  else if trimmed.length > cfg.maxLength then
    { valid := false,
      error := some ("Identifier exceeds maximum length of " ++ Nat.repr cfg.maxLength ++ " characters"),
      sanitized := none }
  else if !matchesIdentPattern trimmed.data then
    { valid := false,
      error := some ("Identifier must start with a letter or underscore and contain only letters, digits, or underscores"),
      sanitized := none }
  else if SQL_KEYWORDS.contains (toLowerStr trimmed) then
    { valid := false,
      error := some (quoteStr ++ trimmed ++ quoteStr ++ " is a SQL reserved keyword"),
      sanitized := none }
  else
    { valid := true, error := none, sanitized := some trimmed }

/-- Embedding of `validateIdentifier`. -/
def validateIdentifier (identifier : String) (cfg : IdentifierConfig) : IdentifierValidationResult :=
  validateIdentifierTrimmed (jsTrim identifier) cfg

/-! ## duckdb-http-adapter: parameter substitution (connection.ts)

`DuckDBValue` is the union `null | boolean | number | bigint | string |
Date | Uint8Array | DuckDBValue[] | object`. A `Date` is carried by its
`toISOString()` rendering and a plain object by its `JSON.stringify`
rendering, since `formatValue` consumes them only through those strings.
Only integral JavaScript numbers are modelled, so that `String(value)` is
plain decimal text. -/

mutual

inductive DuckDBValue where
  | nullV
  | boolV (b : Bool)
  | numV (n : Int)
  | bigintV (n : Int)
  | strV (s : String)
  | dateV (iso : String)
  | bytesV (bs : List Nat)
  | arrV (xs : DuckDBValueList)
  | objV (json : String)

inductive DuckDBValueList where
  | nil
  | cons (v : DuckDBValue) (vs : DuckDBValueList)

end

/-- JavaScript `String(n)` for an integral number or a bigint. -/
def intToDec (n : Int) : String := Int.repr n

/-- Lower-case hexadecimal digit. -/
def hexDigit (n : Nat) : Char :=
  if n < 10 then Char.ofNat (48 + n) else Char.ofNat (87 + n)

/-- JavaScript `b.toString(16).padStart(2, '0')` for a `Uint8Array` entry
(always below 256). -/
def hexByte (n : Nat) : List Char := [hexDigit (n / 16 % 16), hexDigit (n % 16)]

/-- JavaScript `s.replace(/'/g, "''")`: double every single quote. -/
def escQuotes (s : String) : String :=
  String.mk (s.data.flatMap (fun c => if c == quoteChar then [quoteChar, quoteChar] else [c]))

mutual

/-- Embedding of `formatValue`: encode one bound value as a SQL literal. -/
def formatValue : DuckDBValue → String
  | .nullV => "NULL"
  | .boolV b => if b then ("TRUE") else ("FALSE")
  | .numV n => intToDec n
  | .bigintV n => intToDec n
  | .strV s => quoteStr ++ escQuotes s ++ quoteStr
  | .dateV iso => quoteStr ++ iso ++ quoteStr
  | .bytesV bs => quoteStr ++ "\\x" ++ String.mk (bs.flatMap hexByte) ++ quoteStr ++ "::BLOB"
  | .arrV (.cons (.numV n) .nil) => intToDec n
  | .arrV xs => "[" ++ String.intercalate (", ") (formatValueList xs) ++ "]"
  | .objV json => quoteStr ++ escQuotes json ++ quoteStr ++ "::JSON"

/-- Encodings of the elements of an array value, in order. -/
def formatValueList : DuckDBValueList → List String
  | .nil => []
  | .cons v vs => formatValue v :: formatValueList vs

end

/-- Loop body of `substituteParams`: replace every occurrence of the
placeholder of index `idx` by the encoded value, then continue with the
next index (the code counts placeholders from `$1`). -/
def substGo (result : String) (idx : Nat) : List DuckDBValue → String
  | [] => result
  | v :: rest => substGo (replaceAll result ("$" ++ Nat.repr idx) (formatValue v)) (idx + 1) rest

/-- Embedding of `substituteParams`. -/
def substituteParams (query : String) (params : List DuckDBValue) : String :=
  if params.isEmpty then query else substGo query 1 params

/-! ## duckdb-http-adapter: result translation (result.ts)

Wire cells are arbitrary JSON values. `JsonValue` is the closed variant over
the JSON shapes; a JSON number is modelled as an integer, which covers every
value the translated code paths inspect. -/

inductive JsonValue where
  | nullJ
  | boolJ (b : Bool)
  | numJ (n : Int)
  | strJ (s : String)
  | arrJ (xs : List JsonValue)
  | objJ (fields : List (String × JsonValue))

/-- Value of a decimal digit run, or `none` when the run is empty or holds a
non-digit. -/
def digitsVal (ds : List Char) : Option Nat :=
  if !ds.isEmpty && ds.all Char.isDigit then
    some (ds.foldl (fun a c => a * 10 + (c.toNat - 48)) 0)
  else none

/-- JavaScript `BigInt(s)` for a string: trims whitespace, accepts the empty
string as 0 and an optionally signed decimal integer; anything else throws
(`none`). -/
def parseBigIntString (s : String) : Option Int :=
  match jsTrimChars s.data with
  | [] => some 0
  | '-' :: ds => (digitsVal ds).map (fun n => -(n : Int))
  | '+' :: ds => (digitsVal ds).map (fun n => (n : Int))
  | ds => (digitsVal ds).map (fun n => (n : Int))

/-- JavaScript `BigInt(x)` for the `micros` field: numbers and booleans
coerce, strings parse as integers, anything else throws (`none`). -/
def bigIntOfJson : JsonValue → Option Int
  | .strJ s => parseBigIntString s
  | .numJ n => some n
  | .boolJ b => some (if b then 1 else 0)
  | _ => none

/-- JavaScript `Number(x)` for the `days` field, restricted to the integral
results the code meets; `none` stands for NaN. -/
def numberOfJson : JsonValue → Option Int
  | .numJ n => some n
  | .strJ s => parseBigIntString s
  | .boolJ b => some (if b then 1 else 0)
  | .nullJ => some 0
  | _ => none

/-- Field lookup on a JSON object (`row[col]`, `obj.micros`, …). -/
def getField (fields : List (String × JsonValue)) (k : String) : Option JsonValue :=
  (fields.find? (fun p => p.1 == k)).map (fun p => p.2)

/-- JavaScript `k in obj`. -/
def hasKey (fields : List (String × JsonValue)) (k : String) : Bool :=
  fields.any (fun p => p.1 == k)

/-- Output of the value transform: either the wire value passed through, a
`Date` at a millisecond instant, or an Invalid Date. -/
inductive CellValue where
  | raw (v : JsonValue)
  | dateMs (millis : Int)
  | invalidDate

/-- Embedding of `transformValue`. `BigInt` on an unparsable `micros` throws,
so the function is partial over wire values: `none` models the exception.
`Number` on an unparsable `days` yields NaN and an Invalid Date instead.
BigInt division truncates toward zero, which is `Int.tdiv`. -/
def transformValue (value : JsonValue) : Option CellValue :=
  match value with
  | .objJ fields =>
    if hasKey fields ("micros") && fields.length == 1 then
      match bigIntOfJson ((getField fields ("micros")).getD .nullJ) with
      | some micros => some (.dateMs (Int.tdiv micros 1000))
      | none => none
    else if hasKey fields ("days") && fields.length == 1 then
      match numberOfJson ((getField fields ("days")).getD .nullJ) with
      | some days => some (.dateMs (days * 86400000))
      | none => some .invalidDate
    else some (.raw (.objJ fields))
  | v => some (.raw v)

/-- One row of the `HttpQueryResult` constructor:
`columns.map(col => transformValue(row[col] ?? null))`, with a thrown
exception propagating (`none`). -/
def transformRow (columns : List String) (row : List (String × JsonValue)) : Option (List CellValue) :=
  columns.mapM (fun col => transformValue ((getField row col).getD .nullJ))

/-- Row materialisation of the `HttpQueryResult` constructor over the whole
response. -/
def buildRows (columns : List String) (data : List (List (String × JsonValue))) :
    Option (List (List CellValue)) :=
  data.mapM (transformRow columns)

/-- Loop of `deduplicatedColumnNames`. The JavaScript `Map` is modelled as
its lookup function: `seen.get(name) ?? 0` is the function's value and
`seen.set(name, count + 1)` its pointwise update. -/
def dedupGo (seen : String → Nat) : List String → List String
  | [] => []
  | name :: rest =>
    (if seen name == 0 then name else name ++ "_" ++ Nat.repr (seen name))
      :: dedupGo (fun k => if k == name then seen name + 1 else seen k) rest

/-- Embedding of `deduplicatedColumnNames`. -/
def deduplicatedColumnNames (columns : List String) : List String :=
  dedupGo (fun _ => 0) columns

/-- Modelled from the spec: keep the first occurrence of each name
unchanged and suffix the 2nd, 3rd, … occurrences with `_1`, `_2`, …;
`processed` is the prefix already handed out, so the suffix index is the
number of earlier occurrences of the name. -/
def specDedupGo (processed : List String) : List String → List String
  | [] => []
  | name :: rest =>
    (if processed.count name == 0 then name
     else name ++ "_" ++ Nat.repr (processed.count name))
      :: specDedupGo (processed ++ [name]) rest

/-- Modelled from the spec: the claimed suffixing scheme as a whole. -/
def specDedup (columns : List String) : List String := specDedupGo [] columns

/-! ## duckdb-http-adapter: prepared statement (prepared.ts) -/

/-- Mutable state of an `HttpPreparedStatement`. -/
structure PreparedState where
  boundValues : List DuckDBValue
  destroyed : Bool

/-- State of a freshly constructed prepared statement. -/
def initialPrepared : PreparedState :=
  { boundValues := [], destroyed := false }

/-- Embedding of `bind(...values)`: a throw is `Except.error`; on success the
bound value list is replaced. -/
def bindPrepared (values : List DuckDBValue) (s : PreparedState) : Except String PreparedState :=
  if s.destroyed then .error ("Cannot bind to destroyed prepared statement")
  else .ok { s with boundValues := values }

/-- Embedding of `run()`: on success it hands the stored query and the
currently bound values to the connection's executor, modelled by returning
that pair. -/
def runPrepared (query : String) (s : PreparedState) : Except String (String × List DuckDBValue) :=
  if s.destroyed then .error ("Cannot run destroyed prepared statement")
  else .ok (query, s.boundValues)

/-- Embedding of `destroySync()`: marks destroyed and clears the bound
values. -/
def destroySyncPrepared (_ : PreparedState) : PreparedState :=
  { boundValues := [], destroyed := true }

/-! ## Theorems -/

theorem validateSqlWith_valid_eq (identify : String → Except String (List SqlStatement))
    (sql : String) (cfg : SqlGuardConfig) :
    (validateSqlWith identify sql cfg).valid = (validateSqlWith identify sql cfg).errors.isEmpty := by
  unfold validateSqlWith
  split
  · rfl
  · split
    · rfl
    · split
      · rfl
      · split
        · rfl
        · split
          · rfl
          · rfl

/-- C4: every ValidationResult produced by validateSql satisfies
`valid = (errors is empty)`, for every classifier behaviour, input string and
configuration; `isReadOnlyQuery` is the `valid` field of such a result, so it
is true exactly when the default-configured validation has no errors. -/
theorem C4_valid_iff_errors_empty (identify : String → Except String (List SqlStatement))
    (sql : String) (cfg : SqlGuardConfig) :
    (validateSqlWith identify sql cfg).valid = (validateSqlWith identify sql cfg).errors.isEmpty ∧
    isReadOnlyQuery identify sql = (validateSqlWith identify sql DEFAULT_CONFIG).errors.isEmpty :=
  ⟨validateSqlWith_valid_eq identify sql cfg, validateSqlWith_valid_eq identify sql DEFAULT_CONFIG⟩

/-- C1: whenever validateSql reaches the classification step (the input is
neither empty nor over the length limit) and the classifier splits the text
into two or more statements, the result is invalid with the single
multiple-statements error — for every configuration, so independent of
`selectOnly` — and no statement-type or dangerous-function errors are
appended. -/
theorem C1_multiple_statements (identify : String → Except String (List SqlStatement))
    (sql : String) (cfg : SqlGuardConfig) (statements : List SqlStatement)
    (hne : (jsTrim sql).data.isEmpty = false)
    (hlen : sql.length ≤ cfg.maxQueryLength)
    (hid : identify sql = Except.ok statements)
    (hmulti : 1 < statements.length) :
    validateSqlWith identify sql cfg =
      { valid := false, errors := ["Multiple statements are not allowed"], statementType := none } := by
  unfold validateSqlWith
  rw [hid]
  simp [hne, Nat.not_lt.mpr hlen, hmulti]

/-- C1 witness: a two-statement classification is rejected with exactly the
multiple-statements error. -/
theorem C1_multiple_statements_witness :
    validateSqlWith (fun _ => Except.ok [⟨"SELECT", "LISTING"⟩, ⟨"SELECT", "LISTING"⟩])
        ("SELECT 1; SELECT 2") DEFAULT_CONFIG =
      { valid := false, errors := ["Multiple statements are not allowed"], statementType := none } :=
  C1_multiple_statements _ _ _ _ (by decide) (by decide) rfl (by decide)

/-- C3: validateSql is a total function by construction (it is defined as a
Lean function into ValidationResult for every classifier behaviour, input and
configuration), and a classifier failure is converted into the returned
parse-failure validation error rather than propagating. -/
theorem C3_classifier_failure_returned (identify : String → Except String (List SqlStatement))
    (sql : String) (cfg : SqlGuardConfig) (e : String)
    (hne : (jsTrim sql).data.isEmpty = false)
    (hlen : sql.length ≤ cfg.maxQueryLength)
    (hid : identify sql = Except.error e) :
    validateSqlWith identify sql cfg =
      { valid := false, errors := ["Failed to parse SQL: " ++ e], statementType := none } := by
  unfold validateSqlWith
  rw [hid]
  simp [hne, Nat.not_lt.mpr hlen]

/-- C3 witness: a throwing classifier yields the parse-failure error as a
returned result. -/
theorem C3_classifier_failure_returned_witness :
    validateSqlWith (fun _ => Except.error ("boom")) ("SELECT 1") DEFAULT_CONFIG =
      { valid := false, errors := ["Failed to parse SQL: boom"], statementType := none } :=
  C3_classifier_failure_returned _ _ _ _ (by decide) (by decide) rfl

theorem dangerMsg_lastChar (fn : String) : (dangerMsg fn).data.getLast? = some 's' := by
  unfold dangerMsg
  rw [String.data_append, List.getLast?_append_of_ne_nil _ (by decide)]
  decide

theorem typeErrors_lastChar (stmt : SqlStatement) (cfg : SqlGuardConfig) (m : String)
    (hm : m ∈ typeErrors stmt cfg) :
    m.data.getLast? = some '.' ∨ m.data.getLast? = some 'd' := by
  unfold typeErrors at hm
  rw [List.mem_append] at hm
  rcases hm with h | h
  · left
    split at h
    · rw [List.mem_singleton] at h
      subst h
      rw [String.data_append, List.getLast?_append_of_ne_nil _ (by decide)]
      decide
    · cases h
  · right
    split at h
    · rw [List.mem_singleton] at h
      subst h
      rw [String.data_append, List.getLast?_append_of_ne_nil _ (by decide)]
      decide
    · cases h

theorem dangerMsg_not_mem_typeErrors (fn : String) (stmt : SqlStatement) (cfg : SqlGuardConfig) :
    dangerMsg fn ∉ typeErrors stmt cfg := by
  intro hm
  rcases typeErrors_lastChar stmt cfg _ hm with h | h <;>
    · rw [dangerMsg_lastChar] at h
      injection h with h
      exact absurd h (by decide)

theorem dangerMsgs_nodup : (DANGEROUS_FUNCTIONS.map dangerMsg).Nodup := by decide

theorem count_map_filter_of_nodup {α : Type} (g : α → String) (p : α → Bool) :
    ∀ (l : List α), (l.map g).Nodup → ∀ a ∈ l,
      ((l.filter p).map g).count (g a) = if p a then 1 else 0 := by
  intro l
  induction l with
  | nil => intro _ a ha; cases ha
  | cons x xs ih =>
    intro hnd a ha
    rw [List.map_cons, List.nodup_cons] at hnd
    obtain ⟨hx, hnd'⟩ := hnd
    rw [List.mem_cons] at ha
    rw [List.filter_cons]
    rcases ha with rfl | ha
    · by_cases hp : p a
      · rw [if_pos hp, if_pos hp, List.map_cons, List.count_cons]
        have h0 : ((xs.filter p).map g).count (g a) = 0 := by
          apply List.count_eq_zero.mpr
          intro hmem
          exact hx (((List.filter_sublist xs).map g).subset hmem)
        simp [h0]
      · rw [if_neg hp, if_neg hp]
        apply List.count_eq_zero.mpr
        intro hmem
        exact hx (((List.filter_sublist xs).map g).subset hmem)
    · have hga : (g x == g a) = false := by
        apply beq_eq_false_iff_ne.mpr
        intro h
        exact hx (h ▸ List.mem_map_of_mem g ha)
      by_cases hp : p x
      · rw [if_pos hp, List.map_cons, List.count_cons, ih hnd' a ha, hga]
        simp
      · rw [if_neg hp]
        exact ih hnd' a ha

/-- C2: whenever validateSql reaches the accumulation step (non-empty, within
the length limit, one classified statement), the error for a deny-listed
function appears in the returned error list exactly once when
`blockDangerousFunctions` is set and the lower-cased text matches the
function-call pattern for that name, and never otherwise; counting each
matched name exactly once means every matched name contributes its own
distinct error and all matched names are reported, while no such error exists
when `blockDangerousFunctions` is false. -/
theorem C2_dangerous_function_errors (identify : String → Except String (List SqlStatement))
    (sql : String) (cfg : SqlGuardConfig) (stmt : SqlStatement) (fn : String)
    (hne : (jsTrim sql).data.isEmpty = false)
    (hlen : sql.length ≤ cfg.maxQueryLength)
    (hid : identify sql = Except.ok [stmt])
    (hfn : fn ∈ DANGEROUS_FUNCTIONS) :
    (validateSqlWith identify sql cfg).errors.count (dangerMsg fn) =
      if cfg.blockDangerousFunctions && hasDangerousCall sql fn then 1 else 0 := by
  unfold validateSqlWith
  rw [hid]
  simp only [hne, Bool.false_eq_true, if_false, Nat.not_lt.mpr hlen, if_neg (Nat.not_lt.mpr hlen),
    List.length_cons, List.length_nil]
  norm_num
  rw [List.count_eq_zero.mpr (dangerMsg_not_mem_typeErrors fn stmt cfg)]
  unfold dangerousErrors
  by_cases hb : cfg.blockDangerousFunctions
  · rw [if_pos hb,
      count_map_filter_of_nodup dangerMsg (fun f => hasDangerousCall sql f) DANGEROUS_FUNCTIONS
        dangerMsgs_nodup fn hfn]
    by_cases hh : hasDangerousCall sql fn <;> simp [hb, hh]
  · rw [if_neg hb]
    simp [hb]

/-- C2 witness: `read_csv(` in the text produces exactly one blocked-function
error under the default configuration. -/
theorem C2_dangerous_function_errors_witness :
    (validateSqlWith (fun _ => Except.ok [⟨"SELECT", "LISTING"⟩])
        ("SELECT read_csv(1)") DEFAULT_CONFIG).errors.count (dangerMsg ("read_csv")) =
      if DEFAULT_CONFIG.blockDangerousFunctions &&
          hasDangerousCall ("SELECT read_csv(1)") ("read_csv") then 1 else 0 :=
  C2_dangerous_function_errors _ _ _ _ _ (by decide) (by decide) rfl (by decide)

/-- C5 counterexample: on the input `" abc "` the validator succeeds, yet the
returned sanitized value is the trimmed `"abc"`, not the input itself — the
claim that `sanitized` is byte-identical to the input fails. -/
theorem C5_sanitized_counterexample :
    (validateIdentifier (" abc ") DEFAULT_IDENTIFIER_CONFIG).valid = true ∧
    (validateIdentifier (" abc ") DEFAULT_IDENTIFIER_CONFIG).sanitized = some ("abc") ∧
    (validateIdentifier (" abc ") DEFAULT_IDENTIFIER_CONFIG).sanitized ≠ some (" abc ") := by
  refine ⟨?_, ?_, ?_⟩ <;> decide

/-- C5 as amended: on success the sanitized field is the whitespace-trimmed
input (so byte-identical to the input exactly when the input carries no
leading or trailing whitespace, and never quoted or otherwise rewritten), and
sanitized is present only when valid is true. -/
theorem C5_sanitized_is_trimmed_input (ident : String) (cfg : IdentifierConfig) :
    ((validateIdentifier ident cfg).valid = true →
      (validateIdentifier ident cfg).sanitized = some (jsTrim ident)) ∧
    ((validateIdentifier ident cfg).sanitized ≠ none →
      (validateIdentifier ident cfg).valid = true) ∧
    (jsTrim ident = ident → (validateIdentifier ident cfg).valid = true →
      (validateIdentifier ident cfg).sanitized = some ident) := by
  unfold validateIdentifier validateIdentifierTrimmed
  split
  · simp
  · split
    · simp
    · split
      · simp
      · split
        · simp
        · refine ⟨fun _ => rfl, fun _ => rfl, fun ht _ => ?_⟩
          rw [ht]

/-- C5 witness: a clean identifier validates and is returned unchanged. -/
theorem C5_sanitized_is_trimmed_input_witness :
    (validateIdentifier ("events") DEFAULT_IDENTIFIER_CONFIG).sanitized = some ("events") :=
  (C5_sanitized_is_trimmed_input ("events") DEFAULT_IDENTIFIER_CONFIG).2.2 (by decide) (by decide)

/-- C6: parameter substitution replaces every occurrence of each positional
placeholder with the encoded literal of the corresponding value — for a
single parameter this is exactly replace-all of `$1` — and the encoding obeys
the claimed table: NULL, TRUE and FALSE, decimal text for numbers and
bigints, single-quoted strings with embedded quotes doubled, single-quoted
ISO text for dates, a hex literal cast to BLOB for binary, the bare number
for a single-element numeric array (so `LIMIT $1` bound to `[25]` becomes
`LIMIT 25`), a bracketed comma-joined recursive encoding for other arrays
(including a single-element bigint array, which does not collapse), and a
JSON-encoded string cast to JSON for plain objects. -/
theorem C6_parameter_substitution :
    (∀ (q : String) (n : Int),
      substituteParams q [DuckDBValue.arrV (.cons (.numV n) .nil)] =
        replaceAll q ("$1") (intToDec n)) ∧
    substituteParams ("SELECT * FROM events LIMIT $1") [DuckDBValue.arrV (.cons (.numV 25) .nil)] =
      "SELECT * FROM events LIMIT 25" ∧
    formatValue .nullV = "NULL" ∧
    (∀ b, formatValue (.boolV b) = if b then ("TRUE") else ("FALSE")) ∧
    (∀ n : Int, formatValue (.numV n) = intToDec n) ∧
    (∀ n : Int, formatValue (.bigintV n) = intToDec n) ∧
    (∀ s, formatValue (.strV s) = quoteStr ++ escQuotes s ++ quoteStr) ∧
    (∀ iso, formatValue (.dateV iso) = quoteStr ++ iso ++ quoteStr) ∧
    formatValue (.bytesV [171, 1]) = quoteStr ++ "\\xab01" ++ quoteStr ++ "::BLOB" ∧
    (∀ n : Int, formatValue (.arrV (.cons (.bigintV n) .nil)) = "[" ++ intToDec n ++ "]") ∧
    (∀ v w ws, formatValue (.arrV (.cons v (.cons w ws))) =
      "[" ++ String.intercalate (", ") (formatValue v :: formatValue w :: formatValueList ws) ++ "]") ∧
    (∀ json, formatValue (.objV json) = quoteStr ++ escQuotes json ++ quoteStr ++ "::JSON") := by
  refine ⟨fun q n => rfl, by decide, rfl, fun b => rfl, fun n => rfl, fun n => rfl, fun s => rfl,
    fun iso => rfl, by decide, fun n => rfl, fun v w ws => by cases v <;> rfl, fun json => rfl⟩

/-- C7: the value transform turns a single-key `micros` object into a
point-in-time value at integer micros tdiv 1000 milliseconds (the concrete
cell of the claim decodes to millisecond 1700000000000, also through the
full row construction), turns a single-key `days` object into the instant at
days × 86400000 milliseconds, and passes every other value through
unchanged — every non-object shape, every object with two or more keys
(including `micros` plus other keys, checked both generally and on a
concrete cell). -/
theorem C7_transform_value :
    transformValue (.objJ [(("micros" : String), .strJ ("1700000000000000"))]) =
      some (.dateMs 1700000000000) ∧
    buildRows [("a" : String)]
        [[(("a" : String), .objJ [(("micros" : String), .strJ ("1700000000000000"))])]] =
      some [[.dateMs 1700000000000]] ∧
    (∀ n : Int, transformValue (.objJ [(("micros" : String), .numJ n)]) =
      some (.dateMs (Int.tdiv n 1000))) ∧
    (∀ n : Int, transformValue (.objJ [(("days" : String), .numJ n)]) =
      some (.dateMs (n * 86400000))) ∧
    transformValue .nullJ = some (.raw .nullJ) ∧
    (∀ b, transformValue (.boolJ b) = some (.raw (.boolJ b))) ∧
    (∀ n, transformValue (.numJ n) = some (.raw (.numJ n))) ∧
    (∀ s, transformValue (.strJ s) = some (.raw (.strJ s))) ∧
    (∀ xs, transformValue (.arrJ xs) = some (.raw (.arrJ xs))) ∧
    (∀ p q fs, transformValue (.objJ (p :: q :: fs)) = some (.raw (.objJ (p :: q :: fs)))) ∧
    transformValue (.objJ [(("micros" : String), .strJ ("5")), (("other" : String), .nullJ)]) =
      some (.raw (.objJ [(("micros" : String), .strJ ("5")), (("other" : String), .nullJ)])) := by
  refine ⟨rfl, rfl, fun n => rfl, fun n => rfl, rfl, fun b => rfl, fun n => rfl, fun s => rfl,
    fun xs => rfl, fun p q fs => ?_, rfl⟩
  have h1 : ((p :: q :: fs).length == 1) = false := by
    rw [beq_eq_false_iff_ne]
    simp only [List.length_cons]
    omega
  simp [transformValue, h1]

theorem dedupGo_eq_specGo (rest : List String) :
    ∀ (seen : String → Nat) (processed : List String),
      (∀ k, seen k = processed.count k) → dedupGo seen rest = specDedupGo processed rest := by
  induction rest with
  | nil => intro seen processed h; rfl
  | cons name rest ih =>
    intro seen processed h
    unfold dedupGo specDedupGo
    rw [h name]
    congr 1
    apply ih
    intro k
    by_cases hk : k = name
    · subst hk
      simp [h k, List.count_append, List.count_singleton']
    · simp [hk, Ne.symm hk, h k, List.count_append, List.count_singleton']

/-- C8 counterexample: the input list `["x", "x_1", "x"]` deduplicates to
`["x", "x_1", "x_1"]`, which is not pairwise-unique — the suffixed second
occurrence of `x` collides with the input name `x_1`. -/
theorem C8_unique_counterexample :
    deduplicatedColumnNames [("x" : String), "x_1", "x"] = [("x" : String), "x_1", "x_1"] ∧
    ¬ (deduplicatedColumnNames [("x" : String), "x_1", "x"]).Nodup := by
  refine ⟨by decide, ?_⟩
  intro h
  rw [show deduplicatedColumnNames [("x" : String), "x_1", "x"] =
    [("x" : String), "x_1", "x_1"] from by decide] at h
  simp at h

/-- C8 as amended: deduplication keeps the first occurrence of each name
unchanged and suffixes the k-th later occurrence with the count of earlier
occurrences (`_1`, `_2`, …), so `["x", "x"]` becomes `["x", "x_1"]`; the
resulting names are not guaranteed pairwise-unique, since a suffixed name can
collide with another input name. -/
theorem C8_dedup_suffixing (columns : List String) :
    deduplicatedColumnNames columns = specDedup columns ∧
    deduplicatedColumnNames [("x" : String), "x"] = [("x" : String), "x_1"] :=
  ⟨dedupGo_eq_specGo columns (fun _ => 0) [] (fun _ => rfl), by decide⟩

/-- C9: after destroySync the state is destroyed with its bound values
cleared, every bind and every run on a destroyed state fails with the
programming-error message and a destroyed state never leaves that condition;
before destruction run hands the executor the stored query with the most
recently bound values — a second bind replaces, not appends. -/
theorem C9_prepared_lifecycle (s : PreparedState) (q : String) (vs ws : List DuckDBValue) :
    bindPrepared vs (destroySyncPrepared s) =
      Except.error ("Cannot bind to destroyed prepared statement") ∧
    runPrepared q (destroySyncPrepared s) =
      Except.error ("Cannot run destroyed prepared statement") ∧
    (destroySyncPrepared s).boundValues = [] ∧
    (destroySyncPrepared s).destroyed = true ∧
    (s.destroyed = true →
      bindPrepared vs s = Except.error ("Cannot bind to destroyed prepared statement") ∧
      runPrepared q s = Except.error ("Cannot run destroyed prepared statement")) ∧
    (s.destroyed = false → ∀ s1 s2, bindPrepared vs s = Except.ok s1 →
      bindPrepared ws s1 = Except.ok s2 → runPrepared q s2 = Except.ok (q, ws)) := by
  refine ⟨rfl, rfl, rfl, rfl, fun hd => ?_, fun hd s1 s2 h1 h2 => ?_⟩
  · unfold bindPrepared runPrepared
    rw [hd]
    exact ⟨rfl, rfl⟩
  · unfold bindPrepared at h1 h2
    rw [hd] at h1
    simp only [if_neg Bool.false_ne_true] at h1
    injection h1 with h1
    subst h1
    simp only [if_neg Bool.false_ne_true] at h2
    injection h2 with h2
    subst h2
    rfl

/-- C9 witness: binding then running yields the most recent values, and any
operation after destroySync fails. -/
theorem C9_prepared_lifecycle_witness :
    bindPrepared [DuckDBValue.numV 1] (destroySyncPrepared initialPrepared) =
      Except.error ("Cannot bind to destroyed prepared statement") ∧
    runPrepared ("SELECT $1::INTEGER AS v")
        { boundValues := [DuckDBValue.numV 42], destroyed := false } =
      Except.ok (("SELECT $1::INTEGER AS v"), [DuckDBValue.numV 42]) := by
  constructor
  · exact (C9_prepared_lifecycle initialPrepared ("q") [DuckDBValue.numV 1] []).1
  · exact (C9_prepared_lifecycle initialPrepared ("SELECT $1::INTEGER AS v")
      [DuckDBValue.numV 41] [DuckDBValue.numV 42]).2.2.2.2.2 rfl _ _ rfl rfl

/-- C10: result translation is not total — a cell that is a single-key
`micros` object holding a non-integer string makes the transform throw
(modelled as `none`), and building the query result from a response holding
that cell throws as well instead of returning rows or passing the value
through. -/
theorem C10_invalid_micros_throws :
    transformValue (.objJ [(("micros" : String), .strJ ("abc"))]) = none ∧
    buildRows [("a" : String)] [[(("a" : String), .objJ [(("micros" : String), .strJ ("abc"))])]] =
      none :=
  ⟨rfl, rfl⟩
